import Mathlib

/-
  Shallow embedding of ADBManager.py (panchalamitr/ADBManager).

  The program is a single-window GUI: it lists third-party packages reported
  by an external device-bridge tool, fetches per-package metadata from a
  remote catalog, and supports uninstall / drag-and-drop install.  We embed
  the data flow of its operations: external inputs (process output, catalog
  answers, icon fetch answers, font availability) are fields of an
  environment record, the widget list and the placeholder-icon file are the
  mutable state, and user-visible side effects (process invocations, dialogs,
  progress-dialog transitions, reload requests) are an event trace.
-/

namespace ADBM

/-! ### Python string primitives used by the source

  The source parses process output with str.strip, str.splitlines and
  str.split(":"), checks substrings with the in operator, and suffixes with
  str.endswith.  We embed those library semantics over lists of characters
  (ASCII whitespace; lines separated by a newline character, which is the
  separator relevant after stripping). -/

/-- Python str.split(sep) on a single-character separator: every occurrence
    of the separator ends a segment, so n separators yield n+1 segments. -/
def splitAux (sep : Char) : List Char → List Char → List (List Char)
  | [], acc => [acc.reverse]
  | c :: rest, acc =>
    if c = sep then acc.reverse :: splitAux sep rest []
    else splitAux sep rest (c :: acc)

/-- Python str.split with a one-character separator. -/
def pySplit (sep : Char) (s : String) : List String :=
  (splitAux sep s.data []).map String.mk

/-- Python str.strip(): drop leading and trailing whitespace. -/
def pyStrip (s : String) : String :=
  String.mk (((s.data.dropWhile Char.isWhitespace).reverse.dropWhile
      Char.isWhitespace).reverse)

/-- Python str.splitlines() as applied in the source, where the string has
    already been stripped: the empty string yields no lines, otherwise lines
    are the newline-separated segments. -/
def pySplitlines (s : String) : List String :=
  if s = "" then [] else pySplit '\n' s

/-- Whether the first list is an initial segment of the second. -/
def startsWithList : List Char → List Char → Bool
  | [], _ => true
  | _ :: _, [] => false
  | a :: as, b :: bs => a = b && startsWithList as bs

/-- Whether the first list occurs contiguously inside the second. -/
def containsList (needle hay : List Char) : Bool :=
  startsWithList needle hay ||
    match hay with
    | [] => false
    | _ :: rest => containsList needle rest

/-- Python substring test (the in operator on strings). -/
def pyContains (needle hay : String) : Bool :=
  containsList needle.data hay.data

/-- Python str.endswith. -/
def pyEndswith (suffix s : String) : Bool :=
  startsWithList suffix.data.reverse s.data.reverse

/-- Python os.path.basename for forward-slash paths. -/
def pyBasename (p : String) : String :=
  (pySplit '/' p).getLastD ""

/-- Source line 135: package_name = package_line.split(":")[-1].
    Python split always returns a nonempty list, so the [-1] index is total. -/
def parsePackageName (line : String) : String :=
  (pySplit ':' line).getLastD ""

/-! ### Icon fallback generator (create_default_icon, lines 71-92) -/

/-- Font chosen at line 78-82: Arial at size 20 when loadable, else the
    library default font. -/
inductive PilFont where
  | truetypeArial (size : Nat)
  | defaultFont
deriving DecidableEq, Repr

/-- The placeholder image synthesized at lines 76-89: 64x64, solid gray
    background, the text APP drawn centered in white.  The text box width
    and height come from font metrics, which are environment inputs here;
    the centering uses Python floor division. -/
structure IconImage where
  width : Nat
  height : Nat
  background : Nat × Nat × Nat × Nat
  text : String
  font : PilFont
  textX : Int
  textY : Int
  textFill : Nat × Nat × Nat
deriving DecidableEq, Repr

/-- Build the placeholder image exactly as lines 76-89 do. -/
def renderDefaultImage (fontArialOk : Bool) (textW textH : Nat) : IconImage :=
  { width := 64
    height := 64
    background := (100, 100, 100, 255)
    text := "APP"
    font := if fontArialOk then PilFont.truetypeArial 20 else PilFont.defaultFont
    textX := ((64 : Int) - (textW : Int)).fdiv 2
    textY := ((64 : Int) - (textH : Int)).fdiv 2
    textFill := (255, 255, 255) }

/-- Fixed location of the placeholder file (default_icon.png next to the
    program, line 73). -/
def defaultIconPath : String := "default_icon.png"

/-- Result of one create_default_icon call: the returned path, the file
    content at the fixed location afterwards, and how many file writes the
    call performed. -/
structure CreateIconResult where
  path : String
  fs : Option IconImage
  writes : Nat
deriving DecidableEq, Repr

/-- create_default_icon (lines 71-92): if the file exists nothing is
    written; otherwise the placeholder image is synthesized and saved.
    The returned path is the fixed location either way. -/
def create_default_icon (fontArialOk : Bool) (textW textH : Nat)
    (fs : Option IconImage) : CreateIconResult :=
  match fs with
  | some img => ⟨defaultIconPath, some img, 0⟩
  | none => ⟨defaultIconPath, some (renderDefaultImage fontArialOk textW textH), 1⟩

/-! ### Metadata fetcher (add_app_item, lines 142-162) -/

/-- Outcome of fetch_app_details(package_name): either the call raises, or
    it returns a record whose title and icon fields may each be absent
    (dict.get semantics at lines 153-154). -/
inductive CatalogResult where
  | raise
  | found (title : Option String) (icon : Option String)

/-- Outcome of requests.get(icon_url): a raised network error or response
    bytes. -/
inductive IconFetchResult where
  | raise
  | ok (data : List Nat)
deriving DecidableEq, Repr

/-- The pixmap a row ends up with: the scaled placeholder-file pixmap set at
    lines 148-149, or a pixmap decoded from fetched bytes (lines 158-160). -/
inductive Icon where
  | fromDefaultFile
  | fetched (data : List Nat)
deriving DecidableEq, Repr

/-- One row of the app list: the Python locals app_name and package_name,
    the label text f-string of line 172, and the icon pixmap. -/
structure Row where
  appName : String
  packageName : String
  label : String
  icon : Icon
deriving DecidableEq, Repr

/-- External inputs of one refresh cycle. -/
structure Env where
  devicesOut : String
  pmStdout : String
  pmStderr : String
  catalog : String → CatalogResult
  iconFetch : String → IconFetchResult
  fontArialOk : Bool
  textW : Nat
  textH : Nat

/-- Mutable state: the list widget rows and the placeholder file. -/
structure AppState where
  appList : List Row
  fs : Option IconImage

/-- The try block of lines 151-160 as a state transformer over the pair
    (app_name, icon_pixmap), initialized at lines 144-149.  An exception
    anywhere in the block aborts it with the locals as assigned so far:
    a raising catalog lookup leaves both defaults, and a raising icon fetch
    happens after app_name was already assigned from the title but before
    icon_pixmap was overwritten. -/
def tryFetch (env : Env) (pkg : String) :
    Except (String × Icon) (String × Icon) :=
  match env.catalog pkg with
  | CatalogResult.raise => Except.error ("No Name Found", Icon.fromDefaultFile)
  | CatalogResult.found title iconUrl =>
    let appName := title.getD "No Name Found"
    match iconUrl with
    | none => Except.ok (appName, Icon.fromDefaultFile)
    | some url =>
      match env.iconFetch url with
      | IconFetchResult.raise => Except.error (appName, Icon.fromDefaultFile)
      | IconFetchResult.ok data => Except.ok (appName, Icon.fetched data)

/-- The name and icon a row is built from: the except handler at lines
    161-162 only logs, so the locals at the exception point are used just
    like a normal completion. -/
def fetchedNameIcon (env : Env) (pkg : String) : String × Icon :=
  match tryFetch env pkg with
  | Except.ok s => s
  | Except.error s => s

/-- The row add_app_item builds for a package (lines 164-200). -/
def mkRow (env : Env) (pkg : String) : Row :=
  let s := fetchedNameIcon env pkg
  { appName := s.1
    packageName := pkg
    label := s.1 ++ " (" ++ pkg ++ ")"
    icon := s.2 }

/-- add_app_item (lines 142-201): ensure the placeholder file exists, fetch
    name and icon with the catch-all of lines 151-162, and append one row to
    the list widget. -/
def add_app_item (env : Env) (pkg : String) (st : AppState) : AppState :=
  { appList := st.appList ++ [mkRow env pkg]
    fs := (create_default_icon env.fontArialOk env.textW env.textH st.fs).fs }

/-! ### Event trace of user-visible side effects -/

inductive Event where
  | procCall (args : List String)
  | dialogCritical (title msg : String)
  | dialogWarning (title msg : String)
  | dialogInfo (title msg : String)
  | dialogQuestion (title msg : String)
  | logged (msg : String)
  | progressCancel
  | progressClose
  | reload
deriving DecidableEq, Repr

/-- Whether an event is a user-facing dialog. -/
def Event.isDialog : Event → Bool
  | Event.dialogCritical _ _ => true
  | Event.dialogWarning _ _ => true
  | Event.dialogInfo _ _ => true
  | Event.dialogQuestion _ _ => true
  | _ => false

/-- check_adb_connection (lines 214-224): run the device-listing subcommand
    and surface a critical dialog when the substring device is absent from
    its output; in every case control returns to the caller. -/
def check_adb_connection (env : Env) : List Event :=
  Event.procCall ["adb", "devices"] ::
    (if pyContains "device" env.devicesOut then []
     else [Event.dialogCritical "Error"
        "No device connected. Please ensure your device is connected and ADB is enabled."])

/-- load_apps (lines 104-140): clear the list, run the silent device check,
    invoke the package-listing subcommand, then either abort on error
    output, abort on an empty package list, or append one row per line. -/
def load_apps (env : Env) (st : AppState) : AppState × List Event :=
  let cleared : AppState := { st with appList := [] }
  let t0 : List Event := check_adb_connection env ++
    [Event.procCall ["adb", "shell", "pm", "list", "packages", "-3"]]
  if env.pmStderr = "" then
    let packages := pySplitlines (pyStrip env.pmStdout)
    if packages = [] then
      (cleared, t0 ++
        [Event.dialogWarning "Warning" "No apps found or failed to retrieve the app list.",
         Event.progressCancel])
    else
      (packages.foldl (fun s line => add_app_item env (parsePackageName line) s) cleared,
       t0 ++ [Event.progressClose])
  else
    (cleared, t0 ++
      [Event.dialogCritical "Error"
        "Failed to load apps. Make sure ADB is running and the device is connected.",
       Event.progressCancel])

/-- uninstall_app (lines 203-212): run the uninstall subcommand, log the
    outcome either way with no dialog, then request a list reload. -/
def uninstall_app (exitCode : Int) (errOut : String) (pkg : String) : List Event :=
  Event.procCall ["adb", "uninstall", pkg] ::
    (if exitCode = 0 then [Event.logged ("App " ++ pkg ++ " uninstalled successfully.")]
     else [Event.logged ("Failed to uninstall app " ++ pkg ++ ": " ++ errOut)]) ++
    [Event.reload]

/-- The two answers of the yes/no confirmation prompt. -/
inductive Reply where
  | yes
  | no
deriving DecidableEq, Repr

/-- install_apk (lines 239-254): confirmation prompt; on yes, run the
    install subcommand, surface a success or failure dialog, and request a
    reload; on no, nothing further happens.  The widget state is never
    touched here: rows only change through the requested reload. -/
def install_apk (reply : Reply) (exitCode : Int) (errOut : String)
    (apkPath : String) (st : AppState) : AppState × List Event :=
  let q := Event.dialogQuestion "Install APK"
    ("Do you want to install " ++ pyBasename apkPath ++ "?")
  match reply with
  | Reply.no => (st, [q])
  | Reply.yes =>
    (st, q :: Event.procCall ["adb", "install", apkPath] ::
      (if exitCode = 0 then
        [Event.logged ("APK " ++ apkPath ++ " installed successfully."),
         Event.dialogInfo "Success" (pyBasename apkPath ++ " installed successfully.")]
       else
        [Event.logged ("Failed to install APK " ++ apkPath ++ ": " ++ errOut),
         Event.dialogCritical "Error" ("Failed to install " ++ pyBasename apkPath ++ ".")]) ++
      [Event.reload])

/-- dropEvent (lines 231-237) restricted to one dropped file: only paths
    ending in the apk extension reach install_apk. -/
def dropEventOne (reply : Reply) (exitCode : Int) (errOut : String)
    (path : String) (st : AppState) : AppState × List Event :=
  if pyEndswith ".apk" path then install_apk reply exitCode errOut path st
  else (st, [])

/-! ### Concrete sample environments and states -/

/-- A healthy refresh: two well-formed package lines, no error output, a
    catalog that raises for every package. -/
def envTwoApps : Env :=
  { devicesOut := "List of devices attached\nemulator-5554\tdevice"
    pmStdout := "package:com.alpha\npackage:com.beta"
    pmStderr := ""
    catalog := fun _ => CatalogResult.raise
    iconFetch := fun _ => IconFetchResult.raise
    fontArialOk := true
    textW := 30
    textH := 14 }

/-- A refresh whose package-listing invocation produced error output. -/
def envStderr : Env :=
  { envTwoApps with
    pmStdout := ""
    pmStderr := "adb: no devices/emulators found" }

/-- A refresh whose package-listing output is pure whitespace. -/
def envBlank : Env :=
  { envTwoApps with pmStdout := "  \n\t " }

/-- A catalog answer carrying a title and an icon URL while every icon-bytes
    fetch raises a network error. -/
def envIconDown : Env :=
  { envTwoApps with
    pmStdout := "package:com.example"
    catalog := fun _ =>
      CatalogResult.found (some "Cool App") (some "http://icon.example/i.png") }

/-- Output mixing a malformed line (no colon) with a well-formed one. -/
def envMalformed : Env :=
  { envTwoApps with pmStdout := "garbage-line\npackage:com.beta" }

/-- The initial state: empty list widget, no placeholder file yet. -/
def stEmpty : AppState := { appList := [], fs := none }

/-- A state holding one row left over from an earlier refresh. -/
def stPrior : AppState :=
  { appList := [{ appName := "Old App"
                  packageName := "com.old"
                  label := "Old App (com.old)"
                  icon := Icon.fromDefaultFile }]
    fs := none }

end ADBM

namespace ADBM

/-! ### General lemmas about the embedded operations -/

/-- Rebuilding a string from its character list is the identity. -/
theorem string_mk_data (s : String) : String.mk s.data = s := by
  cases s
  rfl

/-- Splitting a list that does not contain the separator yields a single
    segment: the accumulator followed by the rest. -/
theorem splitAux_not_mem (sep : Char) (cs : List Char) :
    ∀ acc : List Char, sep ∉ cs → splitAux sep cs acc = [acc.reverse ++ cs] := by
  induction cs with
  | nil => intro acc _; simp [splitAux]
  | cons c rest ih =>
    intro acc h
    have hc : ¬c = sep := fun e => h (e ▸ List.mem_cons_self c rest)
    have hrest : sep ∉ rest := fun hm => h (List.mem_cons_of_mem c hm)
    rw [splitAux, if_neg hc, ih (c :: acc) hrest]
    simp

/-- A line without a colon parses to itself. -/
theorem parsePackageName_no_colon (line : String) (h : ':' ∉ line.data) :
    parsePackageName line = line := by
  unfold parsePackageName pySplit
  rw [splitAux_not_mem ':' line.data [] h]
  simp [string_mk_data]

/-- The fold of add_app_item over package lines appends one row per line,
    in order. -/
theorem foldl_add_app_item (env : Env) (ps : List String) (st : AppState) :
    (ps.foldl (fun s line => add_app_item env (parsePackageName line) s) st).appList
      = st.appList ++ ps.map (fun l => mkRow env (parsePackageName l)) := by
  induction ps generalizing st with
  | nil => simp
  | cons p rest ih =>
    rw [List.foldl_cons, ih]
    simp [add_app_item]

/-- The app list produced by one load_apps run: empty on error output,
    otherwise one row per stripped output line (so also empty when the
    output strips to no lines). -/
theorem load_apps_appList (env : Env) (st : AppState) :
    (load_apps env st).1.appList =
      if env.pmStderr = "" then
        (pySplitlines (pyStrip env.pmStdout)).map (fun l => mkRow env (parsePackageName l))
      else [] := by
  unfold load_apps
  by_cases h : env.pmStderr = ""
  · rw [if_pos h]
    by_cases hp : pySplitlines (pyStrip env.pmStdout) = []
    · simp [hp, h]
    · simp [hp, h, foldl_add_app_item]
  · simp [h]

/-- The event trace of a load_apps run that hit error output. -/
theorem load_apps_trace_stderr (env : Env) (st : AppState)
    (h : ¬env.pmStderr = "") :
    (load_apps env st).2 = check_adb_connection env ++
      [Event.procCall ["adb", "shell", "pm", "list", "packages", "-3"],
       Event.dialogCritical "Error"
         "Failed to load apps. Make sure ADB is running and the device is connected.",
       Event.progressCancel] := by
  simp [load_apps, h]

/-- The event trace of a load_apps run whose output stripped to nothing. -/
theorem load_apps_trace_empty (env : Env) (st : AppState)
    (herr : env.pmStderr = "") (hout : pyStrip env.pmStdout = "") :
    (load_apps env st).2 = check_adb_connection env ++
      [Event.procCall ["adb", "shell", "pm", "list", "packages", "-3"],
       Event.dialogWarning "Warning" "No apps found or failed to retrieve the app list.",
       Event.progressCancel] := by
  simp [load_apps, herr, hout, pySplitlines]

end ADBM

namespace ADBM

/-! ### Claim theorems -/

/-- C2: any failure of the catalog metadata lookup (a raising call, or a
    response missing both fields) is absorbed inside the fetch step: the row
    is still added, labeled with the placeholder name No Name Found and
    carrying the placeholder-file icon, and nothing propagates to the
    caller. -/
theorem add_app_item_catalog_failure (env : Env) (pkg : String) (st : AppState)
    (h : env.catalog pkg = CatalogResult.raise ∨
         env.catalog pkg = CatalogResult.found none none) :
    (add_app_item env pkg st).appList =
      st.appList ++
        [{ appName := "No Name Found", packageName := pkg,
           label := "No Name Found" ++ " (" ++ pkg ++ ")",
           icon := Icon.fromDefaultFile }] := by
  rcases h with h | h <;>
    simp [add_app_item, mkRow, fetchedNameIcon, tryFetch, h]

theorem add_app_item_catalog_failure_witness :
    (envTwoApps.catalog "com.alpha" = CatalogResult.raise ∨
     envTwoApps.catalog "com.alpha" = CatalogResult.found none none) ∧
    (add_app_item envTwoApps "com.alpha" stEmpty).appList =
      stEmpty.appList ++
        [{ appName := "No Name Found", packageName := "com.alpha",
           label := "No Name Found" ++ " (" ++ "com.alpha" ++ ")",
           icon := Icon.fromDefaultFile }] :=
  ⟨Or.inl rfl,
   add_app_item_catalog_failure envTwoApps "com.alpha" stEmpty (Or.inl rfl)⟩

/-- C3 counterexample: in the source the secondary icon-bytes fetch sits
    inside the try block of lines 151-160, so a raising icon fetch is caught
    by the except handler rather than escaping add_app_item: the row is
    still constructed, with the already-assigned title and the placeholder
    icon. -/
theorem icon_fetch_failure_not_uncaught :
    envIconDown.iconFetch "http://icon.example/i.png" = IconFetchResult.raise ∧
    tryFetch envIconDown "com.example" =
      Except.error ("Cool App", Icon.fromDefaultFile) ∧
    (add_app_item envIconDown "com.example" stEmpty).appList =
      [{ appName := "Cool App", packageName := "com.example",
         label := "Cool App (com.example)", icon := Icon.fromDefaultFile }] := by
  refine ⟨rfl, rfl, ?_⟩
  decide

/-- C3 (amended): when the catalog lookup succeeds with an icon URL and the
    secondary icon-bytes fetch fails, the failure is caught by the
    surrounding catch-all of lines 151-162: no exception escapes the row
    construction, and the row is added with the already-fetched title and
    the fallback icon. -/
theorem add_app_item_icon_fetch_failure_caught (env : Env) (pkg url : String)
    (title : Option String) (st : AppState)
    (hc : env.catalog pkg = CatalogResult.found title (some url))
    (hi : env.iconFetch url = IconFetchResult.raise) :
    (add_app_item env pkg st).appList =
      st.appList ++
        [{ appName := title.getD "No Name Found", packageName := pkg,
           label := title.getD "No Name Found" ++ " (" ++ pkg ++ ")",
           icon := Icon.fromDefaultFile }] := by
  simp [add_app_item, mkRow, fetchedNameIcon, tryFetch, hc, hi]

theorem add_app_item_icon_fetch_failure_caught_witness :
    envIconDown.catalog "com.example" =
      CatalogResult.found (some "Cool App") (some "http://icon.example/i.png") ∧
    envIconDown.iconFetch "http://icon.example/i.png" = IconFetchResult.raise ∧
    (add_app_item envIconDown "com.example" stEmpty).appList =
      stEmpty.appList ++
        [{ appName := (some "Cool App").getD "No Name Found",
           packageName := "com.example",
           label := (some "Cool App").getD "No Name Found" ++ " (" ++ "com.example" ++ ")",
           icon := Icon.fromDefaultFile }] :=
  ⟨rfl, rfl,
   add_app_item_icon_fetch_failure_caught envIconDown "com.example"
     "http://icon.example/i.png" (some "Cool App") stEmpty rfl rfl⟩

/-- C4: when the package-listing invocation produces non-empty error
    output, a critical error dialog is surfaced, the progress dialog is
    cancelled, and the refresh ends with no rows in the app list. -/
theorem load_apps_error_output_aborts (env : Env) (st : AppState)
    (h : env.pmStderr ≠ "") :
    (load_apps env st).1.appList = [] ∧
    Event.dialogCritical "Error"
        "Failed to load apps. Make sure ADB is running and the device is connected."
      ∈ (load_apps env st).2 ∧
    Event.progressCancel ∈ (load_apps env st).2 := by
  refine ⟨?_, ?_, ?_⟩
  · rw [load_apps_appList, if_neg h]
  · rw [load_apps_trace_stderr env st h]; simp
  · rw [load_apps_trace_stderr env st h]; simp

theorem load_apps_error_output_aborts_witness :
    envStderr.pmStderr ≠ "" ∧
    ((load_apps envStderr stPrior).1.appList = [] ∧
     Event.dialogCritical "Error"
         "Failed to load apps. Make sure ADB is running and the device is connected."
       ∈ (load_apps envStderr stPrior).2 ∧
     Event.progressCancel ∈ (load_apps envStderr stPrior).2) :=
  ⟨by decide, load_apps_error_output_aborts envStderr stPrior (by decide)⟩

/-- C5: when the package-listing invocation succeeds but its standard
    output strips to the empty string (so it splits into zero lines), a
    warning dialog is surfaced, the progress dialog is cancelled, and the
    refresh ends with no rows in the app list. -/
theorem load_apps_blank_output_aborts (env : Env) (st : AppState)
    (herr : env.pmStderr = "") (hout : pyStrip env.pmStdout = "") :
    (load_apps env st).1.appList = [] ∧
    Event.dialogWarning "Warning" "No apps found or failed to retrieve the app list."
      ∈ (load_apps env st).2 ∧
    Event.progressCancel ∈ (load_apps env st).2 := by
  refine ⟨?_, ?_, ?_⟩
  · rw [load_apps_appList, if_pos herr, hout]
    simp [pySplitlines]
  · rw [load_apps_trace_empty env st herr hout]; simp
  · rw [load_apps_trace_empty env st herr hout]; simp

theorem load_apps_blank_output_aborts_witness :
    envBlank.pmStderr = "" ∧ pyStrip envBlank.pmStdout = "" ∧
    ((load_apps envBlank stPrior).1.appList = [] ∧
     Event.dialogWarning "Warning" "No apps found or failed to retrieve the app list."
       ∈ (load_apps envBlank stPrior).2 ∧
     Event.progressCancel ∈ (load_apps envBlank stPrior).2) :=
  ⟨rfl, by decide, load_apps_blank_output_aborts envBlank stPrior rfl (by decide)⟩

/-- C6: the fallback icon generator is idempotent on the filesystem: when
    the placeholder file exists it performs no write, leaves the file as it
    is and returns the fixed path; and starting from an absent file, the
    first call performs the single write while a second call (even with
    different font availability and metrics) writes nothing, preserves the
    file and returns the same path. -/
theorem create_default_icon_idempotent (f1 f2 : Bool) (w1 h1 w2 h2 : Nat)
    (fs : Option IconImage) (hfs : fs.isSome = true) :
    ((create_default_icon f1 w1 h1 fs).writes = 0 ∧
     (create_default_icon f1 w1 h1 fs).fs = fs ∧
     (create_default_icon f1 w1 h1 fs).path = defaultIconPath) ∧
    ((create_default_icon f1 w1 h1 none).writes = 1 ∧
     (create_default_icon f2 w2 h2 (create_default_icon f1 w1 h1 none).fs).writes = 0 ∧
     (create_default_icon f2 w2 h2 (create_default_icon f1 w1 h1 none).fs).fs
       = (create_default_icon f1 w1 h1 none).fs ∧
     (create_default_icon f2 w2 h2 (create_default_icon f1 w1 h1 none).fs).path
       = (create_default_icon f1 w1 h1 none).path) := by
  obtain ⟨img, rfl⟩ := Option.isSome_iff_exists.mp hfs
  exact ⟨⟨rfl, rfl, rfl⟩, rfl, rfl, rfl, rfl⟩

theorem create_default_icon_idempotent_witness :
    (some (renderDefaultImage true 30 14)).isSome = true ∧
    (((create_default_icon true 30 14 (some (renderDefaultImage true 30 14))).writes = 0 ∧
      (create_default_icon true 30 14 (some (renderDefaultImage true 30 14))).fs
        = some (renderDefaultImage true 30 14) ∧
      (create_default_icon true 30 14 (some (renderDefaultImage true 30 14))).path
        = defaultIconPath) ∧
     ((create_default_icon true 30 14 none).writes = 1 ∧
      (create_default_icon false 5 7 (create_default_icon true 30 14 none).fs).writes = 0 ∧
      (create_default_icon false 5 7 (create_default_icon true 30 14 none).fs).fs
        = (create_default_icon true 30 14 none).fs ∧
      (create_default_icon false 5 7 (create_default_icon true 30 14 none).fs).path
        = (create_default_icon true 30 14 none).path)) :=
  ⟨rfl, create_default_icon_idempotent true false 30 14 5 7
      (some (renderDefaultImage true 30 14)) rfl⟩

end ADBM

namespace ADBM

/-- C1: for a package-listing output whose stripped standard output splits
    into N well-formed package:<id> lines, the refresh ends with exactly N
    rows, one per line in order, and each row records and labels the text
    after the last colon of its line. -/
theorem load_apps_rows_per_line (env : Env) (st : AppState) (lines : List String)
    (herr : env.pmStderr = "")
    (hout : pySplitlines (pyStrip env.pmStdout) = lines)
    (hwf : ∀ l ∈ lines, ∃ id, l = "package:" ++ id) :
    ((load_apps env st).1.appList).length = lines.length ∧
    ∀ i : Nat, i < lines.length →
      ∃ line row, lines[i]? = some line ∧
        ((load_apps env st).1.appList)[i]? = some row ∧
        row.packageName = parsePackageName line ∧
        ∃ pre post, row.label = pre ++ parsePackageName line ++ post := by
  have hl : (load_apps env st).1.appList
      = lines.map (fun l => mkRow env (parsePackageName l)) := by
    rw [load_apps_appList, if_pos herr, hout]
  constructor
  · rw [hl, List.length_map]
  · intro i hi
    have hline : lines[i]? = some lines[i] := List.getElem?_eq_getElem hi
    refine ⟨lines[i], mkRow env (parsePackageName lines[i]), hline, ?_, rfl, ?_⟩
    · rw [hl, List.getElem?_map, hline]
      rfl
    · exact ⟨(fetchedNameIcon env (parsePackageName lines[i])).1 ++ " (", ")", rfl⟩

theorem load_apps_rows_per_line_witness :
    envTwoApps.pmStderr = "" ∧
    pySplitlines (pyStrip envTwoApps.pmStdout) = ["package:com.alpha", "package:com.beta"] ∧
    (((load_apps envTwoApps stEmpty).1.appList).length
        = (["package:com.alpha", "package:com.beta"] : List String).length ∧
     ∀ i : Nat, i < (["package:com.alpha", "package:com.beta"] : List String).length →
       ∃ line row,
         (["package:com.alpha", "package:com.beta"] : List String)[i]? = some line ∧
         ((load_apps envTwoApps stEmpty).1.appList)[i]? = some row ∧
         row.packageName = parsePackageName line ∧
         ∃ pre post, row.label = pre ++ parsePackageName line ++ post) :=
  ⟨rfl, by decide,
   load_apps_rows_per_line envTwoApps stEmpty ["package:com.alpha", "package:com.beta"]
     rfl (by decide)
     (by
       intro l hl
       simp only [List.mem_cons, List.mem_singleton] at hl
       rcases hl with rfl | rfl | hl
       · exact ⟨"com.alpha", by decide⟩
       · exact ⟨"com.beta", by decide⟩
       · cases hl)⟩

/-- C7: dropping a file with the apk extension and answering No to the
    confirmation prompt leaves the application state unchanged and the
    trace is the prompt alone: no process invocation and no reload
    request. -/
theorem drop_apk_decline_no_effects (exitCode : Int) (errOut path : String)
    (st : AppState) (hext : pyEndswith ".apk" path = true) :
    (dropEventOne Reply.no exitCode errOut path st).1 = st ∧
    (dropEventOne Reply.no exitCode errOut path st).2 =
      [Event.dialogQuestion "Install APK"
        ("Do you want to install " ++ pyBasename path ++ "?")] ∧
    ∀ e ∈ (dropEventOne Reply.no exitCode errOut path st).2,
      (∀ args, e ≠ Event.procCall args) ∧ e ≠ Event.reload := by
  have h2 : dropEventOne Reply.no exitCode errOut path st =
      (st, [Event.dialogQuestion "Install APK"
        ("Do you want to install " ++ pyBasename path ++ "?")]) := by
    simp [dropEventOne, hext, install_apk]
  rw [h2]
  refine ⟨rfl, rfl, ?_⟩
  intro e he
  simp only [List.mem_singleton] at he
  subst he
  exact ⟨fun _ h => Event.noConfusion h, fun h => Event.noConfusion h⟩

theorem drop_apk_decline_no_effects_witness :
    pyEndswith ".apk" "/tmp/sample.apk" = true ∧
    ((dropEventOne Reply.no 0 "" "/tmp/sample.apk" stPrior).1 = stPrior ∧
     (dropEventOne Reply.no 0 "" "/tmp/sample.apk" stPrior).2 =
       [Event.dialogQuestion "Install APK"
         ("Do you want to install " ++ pyBasename "/tmp/sample.apk" ++ "?")] ∧
     ∀ e ∈ (dropEventOne Reply.no 0 "" "/tmp/sample.apk" stPrior).2,
       (∀ args, e ≠ Event.procCall args) ∧ e ≠ Event.reload) :=
  ⟨by decide, drop_apk_decline_no_effects 0 "" "/tmp/sample.apk" stPrior (by decide)⟩

/-- C8: error reporting of the two mutating operations is asymmetric: a
    failing uninstall leaves no user-facing dialog in its trace (it is only
    logged), while a confirmed failing install surfaces a critical error
    dialog. -/
theorem uninstall_install_dialog_asymmetry (exitCode : Int)
    (errOut pkg apkPath : String) (st : AppState) (h : exitCode ≠ 0) :
    (∀ e ∈ uninstall_app exitCode errOut pkg, e.isDialog = false) ∧
    Event.dialogCritical "Error" ("Failed to install " ++ pyBasename apkPath ++ ".")
      ∈ (install_apk Reply.yes exitCode errOut apkPath st).2 := by
  constructor
  · intro e he
    simp only [uninstall_app, if_neg h, List.cons_append, List.nil_append,
      List.mem_cons, List.mem_singleton, List.not_mem_nil, or_false] at he
    rcases he with rfl | rfl | rfl <;> rfl
  · simp [install_apk, if_neg h]

theorem uninstall_install_dialog_asymmetry_witness :
    (1 : Int) ≠ 0 ∧
    ((∀ e ∈ uninstall_app 1 "boom" "com.old", e.isDialog = false) ∧
     Event.dialogCritical "Error" ("Failed to install " ++ pyBasename "/tmp/sample.apk" ++ ".")
       ∈ (install_apk Reply.yes 1 "boom" "/tmp/sample.apk" stPrior).2) :=
  ⟨by decide,
   uninstall_install_dialog_asymmetry 1 "boom" "com.old" "/tmp/sample.apk" stPrior (by decide)⟩

/-- C9: load_apps clears the list widget before the device check and the
    process invocation, so both abort paths (error output, output stripping
    to nothing) leave the app list empty rather than retaining the rows
    displayed before the refresh. -/
theorem load_apps_abort_clears_prior (env : Env) (st : AppState)
    (h : env.pmStderr ≠ "" ∨ pyStrip env.pmStdout = "") :
    (load_apps env st).1.appList = [] ∧
    (st.appList ≠ [] → (load_apps env st).1.appList ≠ st.appList) := by
  have he : (load_apps env st).1.appList = [] := by
    rcases h with h | h
    · rw [load_apps_appList, if_neg h]
    · rw [load_apps_appList]
      by_cases herr : env.pmStderr = ""
      · rw [if_pos herr, h]
        simp [pySplitlines]
      · rw [if_neg herr]
  refine ⟨he, fun hne hc => hne ?_⟩
  rw [he] at hc
  exact hc.symm

theorem load_apps_abort_clears_prior_witness :
    (envBlank.pmStderr ≠ "" ∨ pyStrip envBlank.pmStdout = "") ∧
    ((load_apps envBlank stPrior).1.appList = [] ∧
     (stPrior.appList ≠ [] → (load_apps envBlank stPrior).1.appList ≠ stPrior.appList)) :=
  ⟨Or.inr (by decide), load_apps_abort_clears_prior envBlank stPrior (Or.inr (by decide))⟩

/-- C10: package-line parsing is total and never skips a line: a line with
    no colon parses to the entire line, and on an error-free refresh the
    app list gets exactly one row per stripped output line, well-formed or
    not. -/
theorem parse_total_row_per_line (line : String) (env : Env) (st : AppState)
    (hnc : ':' ∉ line.data) (herr : env.pmStderr = "") :
    parsePackageName line = line ∧
    ((load_apps env st).1.appList).length
      = (pySplitlines (pyStrip env.pmStdout)).length := by
  refine ⟨parsePackageName_no_colon line hnc, ?_⟩
  rw [load_apps_appList, if_pos herr, List.length_map]

theorem parse_total_row_per_line_witness :
    ':' ∉ "garbage-line".data ∧ envMalformed.pmStderr = "" ∧
    (parsePackageName "garbage-line" = "garbage-line" ∧
     ((load_apps envMalformed stEmpty).1.appList).length
       = (pySplitlines (pyStrip envMalformed.pmStdout)).length) :=
  ⟨by decide, rfl,
   parse_total_row_per_line "garbage-line" envMalformed stEmpty (by decide) rfl⟩

end ADBM
